import Mathlib

/-!
# Event-based backtesting engine: a shallow embedding

This file embeds the event-driven backtesting core of the repository:
the ledger state held on a `BacktestBase` instance, the order executor
(`_place_buy_order`, `_place_sell_order`, `_close_out`), the go-long /
go-short helpers of `LongShortBacktest`, the mean-reversion signal
pipeline, and the `run_mean_reversion_strategy` loops of
`LongOnlyBacktest` and `LongShortBacktest`.

Modelling conventions:

* Python floats are modelled as exact rationals (`ℚ`); the ledger
  arithmetic of the source is plain field arithmetic, so the stated
  identities are exact.
* The mutable instance `self` is the `Ledger` structure below, holding
  exactly the engine-visible fields `initial_amount`, `amount` (cash),
  `ftc`, `ptc`, `units`, `position`, `trades`.
* The price column `self.data['close']` is a `List ℚ`; `_get_date_price`
  becomes `getPrice`.  The engine only ever reads in-range candles;
  an out-of-range read (an `IndexError` in pandas) is given the junk
  value `0` by `List.getD`.
* A call `_place_buy_order(candle)` with `units=None, amount=None`
  raises a `TypeError` in Python (from `None / price`); it is modelled
  as `Except.error OrderError.missingOrderSize`.
* A float `NaN` arising in the `norm_diff` column is modelled as `none`
  in `Option ℝ`; every ordered comparison against `none` is `false`,
  exactly as every float comparison against `NaN` is `False` in Python.
* The `for candle in range(sma, len(self.data))` loop leaves the loop
  variable `candle` unbound when the range is empty, so the following
  `self._close_out(candle)` raises `UnboundLocalError`; this is modelled
  as `Except.error RunError.unboundCandle`.
-/

namespace Backtest

/-- Position tags used by the strategies: `0` flat, `1` long, `-1` short
(the `self.position` field of the source). -/
def FLAT : ℤ := 0

/-- Long position tag. -/
def LONG : ℤ := 1

/-- Short position tag. -/
def SHORT : ℤ := -1

/-- The engine-visible mutable state of a `BacktestBase` instance:
cash (`self.amount`), holdings (`self.units`), position tag, trade count,
together with the per-run constants `initial_amount`, `ftc`, `ptc` that
also live on `self`. -/
structure Ledger where
  initial_amount : ℚ
  amount : ℚ
  ftc : ℚ
  ptc : ℚ
  units : ℚ
  position : ℤ
  trades : ℕ
  deriving Repr, DecidableEq

/-- `BacktestBase.__init__`: stores `amount`, `ftc`, `ptc` unchecked and
starts with `units = 0`, `position = 0`, `trades = 0`.  The source
performs no validation of any argument. -/
def BacktestBase.init (amount ftc ptc : ℚ) : Ledger :=
  { initial_amount := amount
    amount := amount
    ftc := ftc
    ptc := ptc
    units := 0
    position := 0
    trades := 0 }

/-- The price part of `_get_date_price`: `self.data['close'].iloc[candle]`. -/
def getPrice (closes : List ℚ) (candle : ℕ) : ℚ :=
  closes.getD candle 0

/-- Errors an order-executor call can raise.  `missingOrderSize` models the
`TypeError` raised by `None / price` when neither `units` nor `amount`
is supplied. -/
inductive OrderError where
  | missingOrderSize
  deriving Repr, DecidableEq

/-- `BacktestBase._place_buy_order(self, candle, units=None, amount=None)`:
derive `units = amount / price` when `units` is `None`, then
`self.amount -= (units*price) * (1+self.ptc) + self.ftc`,
`self.units += units`, `self.trades += 1`. -/
def _place_buy_order (self : Ledger) (closes : List ℚ) (candle : ℕ)
    (units : Option ℚ) (amount : Option ℚ) : Except OrderError Ledger := do
  let price := getPrice closes candle
  let u : ℚ ←
    match units with
    | some u => pure u
    | none =>
      match amount with
      | some a => pure (a / price)
      | none => throw OrderError.missingOrderSize
  pure { self with
          amount := self.amount - ((u * price) * (1 + self.ptc) + self.ftc)
          units := self.units + u
          trades := self.trades + 1 }

/-- `BacktestBase._place_sell_order(self, candle, units=None, amount=None)`:
derive `units = amount / price` when `units` is `None`, then
`self.amount += (units*price) * (1-self.ptc) - self.ftc`,
`self.units -= units`, `self.trades += 1`. -/
def _place_sell_order (self : Ledger) (closes : List ℚ) (candle : ℕ)
    (units : Option ℚ) (amount : Option ℚ) : Except OrderError Ledger := do
  let price := getPrice closes candle
  let u : ℚ ←
    match units with
    | some u => pure u
    | none =>
      match amount with
      | some a => pure (a / price)
      | none => throw OrderError.missingOrderSize
  pure { self with
          amount := self.amount + ((u * price) * (1 - self.ptc) - self.ftc)
          units := self.units - u
          trades := self.trades + 1 }

/-- `BacktestBase._close_out(self, candle)`:
`self.amount += self.units * price`, `self.units = 0`, `self.trades += 1`.
The source applies neither `ftc` nor `ptc` here, and it does not write
`self.position`. -/
def _close_out (self : Ledger) (closes : List ℚ) (candle : ℕ) : Ledger :=
  let price := getPrice closes candle
  { self with
      amount := self.amount + self.units * price
      units := 0
      trades := self.trades + 1 }

/-- The pre-loop reset of `run_mean_reversion_strategy`:
`self.position = 0`, `self.trades = 0`, `self.amount = self.initial_amount`.
The source does not write `self.units` here. -/
def resetForRun (self : Ledger) : Ledger :=
  { self with
      position := 0
      trades := 0
      amount := self.initial_amount }

/-- The `amount` argument of `_go_long` / `_go_short`: either the string
literal `'all'` or a numeric amount. -/
inductive AmountArg where
  | all
  | val (a : ℚ)
  deriving Repr, DecidableEq

/-- Python truthiness of the `units` argument: `None` and `0.0` are falsy. -/
def truthyUnits : Option ℚ → Bool
  | none => false
  | some u => u != 0

/-- Python truthiness of the `amount` argument: `None` and `0.0` are falsy,
the non-empty string `'all'` is truthy. -/
def truthyAmount : Option AmountArg → Bool
  | none => false
  | some AmountArg.all => true
  | some (AmountArg.val a) => a != 0

/-- Resolution of `amount == 'all'` to the current cash balance
(`amount = self.amount`) inside `_go_long` / `_go_short`. -/
def resolveAmount (self : Ledger) : AmountArg → ℚ
  | AmountArg.all => self.amount
  | AmountArg.val a => a

/-- `LongShortBacktest._go_long(self, candle, units=None, amount=None)`:
liquidate an existing short first (`buy(units=-self.units)`); then
`if units: buy(units=units)` and `elif amount: buy(amount=...)`, with
Python truthiness on both tests and `'all'` resolved to current cash. -/
def _go_long (self : Ledger) (closes : List ℚ) (candle : ℕ)
    (units : Option ℚ) (amount : Option AmountArg) : Except OrderError Ledger := do
  let self ←
    if self.position = -1 then
      _place_buy_order self closes candle (some (-self.units)) none
    else
      pure self
  if truthyUnits units then
    _place_buy_order self closes candle units none
  else if truthyAmount amount then
    _place_buy_order self closes candle none
      (some (resolveAmount self (amount.getD (AmountArg.val 0))))
  else
    pure self

/-- `LongShortBacktest._go_short(self, candle, units=None, amount=None)`:
liquidate an existing long first (`sell(units=self.units)`); then
`if units: sell(units=units)` and `elif amount: sell(amount=...)`, with
Python truthiness on both tests and `'all'` resolved to current cash. -/
def _go_short (self : Ledger) (closes : List ℚ) (candle : ℕ)
    (units : Option ℚ) (amount : Option AmountArg) : Except OrderError Ledger := do
  let self ←
    if self.position = 1 then
      _place_sell_order self closes candle (some self.units) none
    else
      pure self
  if truthyUnits units then
    _place_sell_order self closes candle units none
  else if truthyAmount amount then
    _place_sell_order self closes candle none
      (some (resolveAmount self (amount.getD (AmountArg.val 0))))
  else
    pure self

/-- The rolling mean `self.data['close'].rolling(sma).mean()` at index `i`:
defined (non-`NaN`) when the window is positive and fits, i.e.
`1 ≤ w`, `w ≤ i + 1` and `i < len` (pandas rejects non-positive windows
and yields `NaN` for the first `w - 1` rows). -/
def smaAt (closes : List ℚ) (w : ℕ) (i : ℕ) : Option ℚ :=
  if 1 ≤ w ∧ w ≤ i + 1 ∧ i < closes.length then
    some (((closes.drop (i + 1 - w)).take w).sum / (w : ℚ))
  else
    none

/-- The column `self.data['difference'] = self.data['close'] - self.data['SMA']`
at index `i`; `NaN` (`none`) wherever the SMA is. -/
def difference (closes : List ℚ) (w : ℕ) (i : ℕ) : Option ℚ :=
  (smaAt closes w i).map (fun s => closes.getD i 0 - s)

/-- The defined (non-`NaN`) entries of the `difference` column, in index
order; pandas `mean()` and `std()` aggregate exactly these. -/
def definedDiffs (closes : List ℚ) (w : ℕ) : List ℚ :=
  (List.range closes.length).filterMap (difference closes w)

/-- `self.data['difference'].mean()` over the defined entries. -/
def diffMean (closes : List ℚ) (w : ℕ) : ℚ :=
  (definedDiffs closes w).sum / ((definedDiffs closes w).length : ℚ)

/-- The sample variance (`ddof = 1`, the square of pandas
`self.data['difference'].std()`) over the defined entries; only
meaningful when at least two entries are defined. -/
def diffVar (closes : List ℚ) (w : ℕ) : ℚ :=
  ((definedDiffs closes w).map (fun x => (x - diffMean closes w) ^ 2)).sum
    / (((definedDiffs closes w).length : ℚ) - 1)

/-- The column `norm_diff = (difference - difference.mean()) / difference.std()`
at index `i`, with `none` playing the float `NaN`:
`NaN` where `difference` is `NaN`, where the sample standard deviation is
`NaN` (fewer than two defined entries), and where it is zero — a zero
sample variance forces every defined entry to equal the mean, so the
quotient there is the float `0.0 / 0.0 = NaN`. -/
noncomputable def norm_diff (closes : List ℚ) (w : ℕ) (i : ℕ) : Option ℝ :=
  (difference closes w i).bind fun d =>
    if (definedDiffs closes w).length < 2 then
      none
    else if diffVar closes w = 0 then
      none
    else
      some (((d - diffMean closes w : ℚ) : ℝ) / Real.sqrt ((diffVar closes w : ℚ) : ℝ))

/-- Float comparison `s < x` where `s` may be `NaN` (`none`): any
comparison against `NaN` is `False` in Python. -/
noncomputable def sigLt (s : Option ℝ) (x : ℝ) : Bool :=
  match s with
  | none => false
  | some v => decide (v < x)

/-- Float comparison `s > x` with `NaN` compared as `False`. -/
noncomputable def sigGt (s : Option ℝ) (x : ℝ) : Bool :=
  match s with
  | none => false
  | some v => decide (x < v)

/-- Float comparison `s >= x` with `NaN` compared as `False`. -/
noncomputable def sigGe (s : Option ℝ) (x : ℝ) : Bool :=
  match s with
  | none => false
  | some v => decide (x ≤ v)

/-- Float comparison `s <= x` with `NaN` compared as `False`. -/
noncomputable def sigLe (s : Option ℝ) (x : ℝ) : Bool :=
  match s with
  | none => false
  | some v => decide (v ≤ x)

/-- Errors a whole strategy run can raise: an order-executor error from
inside the loop, or the `UnboundLocalError` hit by `_close_out(candle)`
when the `for` loop never ran and `candle` was never bound. -/
inductive RunError where
  | order (e : OrderError)
  | unboundCandle
  deriving Repr, DecidableEq

/-- The loop body of `LongOnlyBacktest.run_mean_reversion_strategy` at one
candle: when flat, buy all-in and set `position = 1` if
`norm_diff < -threshold`; when long, sell everything and set
`position = 0` if `norm_diff >= 0`. -/
noncomputable def LongOnlyBacktest.step (closes : List ℚ) (sma : ℕ) (threshold : ℚ)
    (self : Ledger) (candle : ℕ) : Except OrderError Ledger := do
  if self.position = 0 then
    if sigLt (norm_diff closes sma candle) ((-threshold : ℚ) : ℝ) then do
      let s ← _place_buy_order self closes candle none (some self.amount)
      pure { s with position := 1 }
    else
      pure self
  else if self.position = 1 then
    if sigGe (norm_diff closes sma candle) ((0 : ℚ) : ℝ) then do
      let s ← _place_sell_order self closes candle (some self.units) none
      pure { s with position := 0 }
    else
      pure self
  else
    pure self

/-- `LongOnlyBacktest.run_mean_reversion_strategy(self, sma, threshold)`:
reset `position`, `trades`, `amount` (not `units`); fold the loop body
over `range(sma, len(self.data))`; then `self._close_out(candle)` with
the loop variable, which is the last index when the loop ran and is
unbound (an `UnboundLocalError`) when it did not. -/
noncomputable def LongOnlyBacktest.run_mean_reversion_strategy
    (self : Ledger) (closes : List ℚ) (sma : ℕ) (threshold : ℚ) :
    Except RunError Ledger := do
  let s0 := resetForRun self
  let s1 ← ((List.range' sma (closes.length - sma)).foldlM
      (LongOnlyBacktest.step closes sma threshold) s0).mapError RunError.order
  if sma < closes.length then
    pure (_close_out s1 closes (closes.length - 1))
  else
    throw RunError.unboundCandle

/-- The loop body of `LongShortBacktest.run_mean_reversion_strategy` at one
candle: when flat, go long (all cash) on `norm_diff < -threshold` or go
short (all cash) on `norm_diff > threshold`; when long, exit on
`norm_diff >= 0`; when short, exit on `norm_diff <= 0`. -/
noncomputable def LongShortBacktest.step (closes : List ℚ) (sma : ℕ) (threshold : ℚ)
    (self : Ledger) (candle : ℕ) : Except OrderError Ledger := do
  if self.position = 0 then
    if sigLt (norm_diff closes sma candle) ((-threshold : ℚ) : ℝ) then do
      let s ← _go_long self closes candle none (some (AmountArg.val self.amount))
      pure { s with position := 1 }
    else if sigGt (norm_diff closes sma candle) ((threshold : ℚ) : ℝ) then do
      let s ← _go_short self closes candle none (some (AmountArg.val self.amount))
      pure { s with position := -1 }
    else
      pure self
  else if self.position = 1 then
    if sigGe (norm_diff closes sma candle) ((0 : ℚ) : ℝ) then do
      let s ← _place_sell_order self closes candle (some self.units) none
      pure { s with position := 0 }
    else
      pure self
  else if self.position = -1 then
    if sigLe (norm_diff closes sma candle) ((0 : ℚ) : ℝ) then do
      let s ← _place_buy_order self closes candle (some (-self.units)) none
      pure { s with position := 0 }
    else
      pure self
  else
    pure self

/-- `LongShortBacktest.run_mean_reversion_strategy(self, sma, threshold)`:
identical frame to the long-only run, with the long/short loop body. -/
noncomputable def LongShortBacktest.run_mean_reversion_strategy
    (self : Ledger) (closes : List ℚ) (sma : ℕ) (threshold : ℚ) :
    Except RunError Ledger := do
  let s0 := resetForRun self
  let s1 ← ((List.range' sma (closes.length - sma)).foldlM
      (LongShortBacktest.step closes sma threshold) s0).mapError RunError.order
  if sma < closes.length then
    pure (_close_out s1 closes (closes.length - 1))
  else
    throw RunError.unboundCandle

/-! ## Executor characterization lemmas -/

/-- A buy with explicit units is the literal ledger update of the source. -/
theorem place_buy_units_eq (self : Ledger) (closes : List ℚ) (candle : ℕ)
    (u : ℚ) (amount : Option ℚ) :
    _place_buy_order self closes candle (some u) amount =
      Except.ok { self with
        amount := self.amount -
          ((u * getPrice closes candle) * (1 + self.ptc) + self.ftc)
        units := self.units + u
        trades := self.trades + 1 } := rfl

/-- A buy sized by a monetary amount derives `units = amount / price`. -/
theorem place_buy_amount_eq (self : Ledger) (closes : List ℚ) (candle : ℕ)
    (a : ℚ) :
    _place_buy_order self closes candle none (some a) =
      Except.ok { self with
        amount := self.amount -
          (((a / getPrice closes candle) * getPrice closes candle) * (1 + self.ptc) + self.ftc)
        units := self.units + a / getPrice closes candle
        trades := self.trades + 1 } := rfl

/-- A sell with explicit units is the literal ledger update of the source. -/
theorem place_sell_units_eq (self : Ledger) (closes : List ℚ) (candle : ℕ)
    (u : ℚ) (amount : Option ℚ) :
    _place_sell_order self closes candle (some u) amount =
      Except.ok { self with
        amount := self.amount +
          ((u * getPrice closes candle) * (1 - self.ptc) - self.ftc)
        units := self.units - u
        trades := self.trades + 1 } := rfl

/-- A sell sized by a monetary amount derives `units = amount / price`. -/
theorem place_sell_amount_eq (self : Ledger) (closes : List ℚ) (candle : ℕ)
    (a : ℚ) :
    _place_sell_order self closes candle none (some a) =
      Except.ok { self with
        amount := self.amount +
          (((a / getPrice closes candle) * getPrice closes candle) * (1 - self.ptc) - self.ftc)
        units := self.units - a / getPrice closes candle
        trades := self.trades + 1 } := rfl

/-! ## C1 — buy/sell cash and holdings equations -/

/-- C1: for every candle and ledger (any non-negative ftc/ptc), an executed
buy satisfies `cash_after = cash_before - units * price * (1 + ptc) - ftc`
and an executed sell satisfies
`cash_after = cash_before + units * price * (1 - ptc) - ftc`, where
`units = amount / price` when the order is sized by a monetary amount; in
both cases holdings change by `+units` (buy) or `-units` (sell). -/
theorem C1_order_cash_and_holdings (self : Ledger) (closes : List ℚ) (candle : ℕ)
    (u a : ℚ) (_hftc : 0 ≤ self.ftc) (_hptc : 0 ≤ self.ptc) :
    (∃ l, _place_buy_order self closes candle (some u) none = Except.ok l
      ∧ l.amount = self.amount - u * getPrice closes candle * (1 + self.ptc) - self.ftc
      ∧ l.units = self.units + u)
  ∧ (∃ l, _place_buy_order self closes candle none (some a) = Except.ok l
      ∧ l.amount = self.amount -
          (a / getPrice closes candle) * getPrice closes candle * (1 + self.ptc) - self.ftc
      ∧ l.units = self.units + a / getPrice closes candle)
  ∧ (∃ l, _place_sell_order self closes candle (some u) none = Except.ok l
      ∧ l.amount = self.amount + u * getPrice closes candle * (1 - self.ptc) - self.ftc
      ∧ l.units = self.units - u)
  ∧ (∃ l, _place_sell_order self closes candle none (some a) = Except.ok l
      ∧ l.amount = self.amount +
          (a / getPrice closes candle) * getPrice closes candle * (1 - self.ptc) - self.ftc
      ∧ l.units = self.units - a / getPrice closes candle) := by
  refine ⟨⟨_, place_buy_units_eq self closes candle u none, ?_, rfl⟩,
          ⟨_, place_buy_amount_eq self closes candle a, ?_, rfl⟩,
          ⟨_, place_sell_units_eq self closes candle u none, ?_, rfl⟩,
          ⟨_, place_sell_amount_eq self closes candle a, ?_, rfl⟩⟩
  · show self.amount - ((u * getPrice closes candle) * (1 + self.ptc) + self.ftc) = _
    ring
  · show self.amount -
        (((a / getPrice closes candle) * getPrice closes candle) * (1 + self.ptc) + self.ftc) = _
    ring
  · show self.amount + ((u * getPrice closes candle) * (1 - self.ptc) - self.ftc) = _
    ring
  · show self.amount +
        (((a / getPrice closes candle) * getPrice closes candle) * (1 - self.ptc) - self.ftc) = _
    ring

/-- Witness for C1 at a concrete input: `ftc = 4`, `ptc = 1`,
price `100`, buying `10` units or `1000` of cash. -/
theorem C1_order_cash_and_holdings_witness :
    (0 ≤ (BacktestBase.init 1000 4 1).ftc ∧ 0 ≤ (BacktestBase.init 1000 4 1).ptc)
  ∧ ((∃ l, _place_buy_order (BacktestBase.init 1000 4 1) [100] 0 (some 10) none = Except.ok l
      ∧ l.amount = (BacktestBase.init 1000 4 1).amount -
          10 * getPrice [100] 0 * (1 + (BacktestBase.init 1000 4 1).ptc) -
          (BacktestBase.init 1000 4 1).ftc
      ∧ l.units = (BacktestBase.init 1000 4 1).units + 10)
    ∧ (∃ l, _place_buy_order (BacktestBase.init 1000 4 1) [100] 0 none (some 1000) = Except.ok l
      ∧ l.amount = (BacktestBase.init 1000 4 1).amount -
          (1000 / getPrice [100] 0) * getPrice [100] 0 * (1 + (BacktestBase.init 1000 4 1).ptc) -
          (BacktestBase.init 1000 4 1).ftc
      ∧ l.units = (BacktestBase.init 1000 4 1).units + 1000 / getPrice [100] 0)
    ∧ (∃ l, _place_sell_order (BacktestBase.init 1000 4 1) [100] 0 (some 10) none = Except.ok l
      ∧ l.amount = (BacktestBase.init 1000 4 1).amount +
          10 * getPrice [100] 0 * (1 - (BacktestBase.init 1000 4 1).ptc) -
          (BacktestBase.init 1000 4 1).ftc
      ∧ l.units = (BacktestBase.init 1000 4 1).units - 10)
    ∧ (∃ l, _place_sell_order (BacktestBase.init 1000 4 1) [100] 0 none (some 1000) = Except.ok l
      ∧ l.amount = (BacktestBase.init 1000 4 1).amount +
          (1000 / getPrice [100] 0) * getPrice [100] 0 * (1 - (BacktestBase.init 1000 4 1).ptc) -
          (BacktestBase.init 1000 4 1).ftc
      ∧ l.units = (BacktestBase.init 1000 4 1).units - 1000 / getPrice [100] 0)) :=
  ⟨⟨by decide, by decide⟩,
   C1_order_cash_and_holdings (BacktestBase.init 1000 4 1) [100] 0 10 1000
     (by decide) (by decide)⟩

/-! ## C2 — close-out effect -/

/-- C2 counterexample: `_close_out` does zero the holdings, but it does not
write `self.position`, so a ledger closed out of a long position still has
`position = LONG ≠ FLAT`; the claim that after close-out
`units == 0 ∧ position == FLAT` holds unconditionally is false. -/
theorem C2_close_out_position_counterexample :
    ¬ (((_close_out
          { initial_amount := 1000, amount := 1000, ftc := 0, ptc := 0,
            units := 2, position := 1, trades := 0 } [5] 0).units = 0)
       ∧ ((_close_out
          { initial_amount := 1000, amount := 1000, ftc := 0, ptc := 0,
            units := 2, position := 1, trades := 0 } [5] 0).position = FLAT)) := by
  decide

/-- C2 amended: after `_close_out` the ledger has `units = 0`, the cash
changed by exactly `units * close_price` with no transaction cost (neither
`ftc` nor `ptc` enters), and the trade count grew by one — but `position`
is left unchanged rather than being forced to `FLAT`. -/
theorem C2_close_out_effect (self : Ledger) (closes : List ℚ) (candle : ℕ) :
    (_close_out self closes candle).units = 0
  ∧ (_close_out self closes candle).amount
      = self.amount + self.units * getPrice closes candle
  ∧ (_close_out self closes candle).trades = self.trades + 1
  ∧ (_close_out self closes candle).position = self.position :=
  ⟨rfl, rfl, rfl, rfl⟩

/-! ## C5 — missing order size -/

/-- C5: a buy or sell given neither `units` nor `amount` fails with the
missing-order-size error (the source raises a `TypeError` from
`None / price`, surfaced to the caller, never silently defaulted), and
whenever at least one of `units` or `amount` is supplied the call
succeeds. -/
theorem C5_missing_order_size (self : Ledger) (closes : List ℚ) (candle : ℕ) :
    _place_buy_order self closes candle none none
      = Except.error OrderError.missingOrderSize
  ∧ _place_sell_order self closes candle none none
      = Except.error OrderError.missingOrderSize
  ∧ ∀ units? amount? : Option ℚ, units?.isSome ∨ amount?.isSome →
      (∃ l, _place_buy_order self closes candle units? amount? = Except.ok l)
      ∧ (∃ l, _place_sell_order self closes candle units? amount? = Except.ok l) := by
  refine ⟨rfl, rfl, ?_⟩
  intro units? amount? hsize
  match units?, amount? with
  | some u, _ =>
    exact ⟨⟨_, place_buy_units_eq self closes candle u _⟩,
           ⟨_, place_sell_units_eq self closes candle u _⟩⟩
  | none, some a =>
    exact ⟨⟨_, place_buy_amount_eq self closes candle a⟩,
           ⟨_, place_sell_amount_eq self closes candle a⟩⟩
  | none, none =>
    simp [Option.isSome] at hsize

/-- Witness for C5 at a concrete input: supplying `units = 10` makes both
calls succeed. -/
theorem C5_missing_order_size_witness :
    (Option.isSome (some (10 : ℚ)) ∨ Option.isSome (none : Option ℚ))
  ∧ ((∃ l, _place_buy_order (BacktestBase.init 1000 0 0) [100] 0 (some 10) none = Except.ok l)
     ∧ (∃ l, _place_sell_order (BacktestBase.init 1000 0 0) [100] 0 (some 10) none = Except.ok l)) :=
  ⟨Or.inl rfl,
   (C5_missing_order_size (BacktestBase.init 1000 0 0) [100] 0).2.2
     (some 10) none (Or.inl rfl)⟩

/-! ## C7 — cost-free round trip -/

/-- C7: with `ftc = 0` and `ptc = 0`, buying `u` units at a candle and then
immediately selling `u` units at the same candle returns the ledger to its
pre-buy cash and holdings exactly; only the trade count moves (by 2). -/
theorem C7_round_trip (self : Ledger) (closes : List ℚ) (candle : ℕ) (u : ℚ)
    (hftc : self.ftc = 0) (hptc : self.ptc = 0)
    (_hp : 0 < getPrice closes candle) :
    (_place_buy_order self closes candle (some u) none >>= fun l =>
       _place_sell_order l closes candle (some u) none)
      = Except.ok { self with trades := self.trades + 2 } := by
  rw [place_buy_units_eq]
  show _place_sell_order _ closes candle (some u) none = _
  rw [place_sell_units_eq]
  simp only [Except.ok.injEq]
  congr 1
  · simp [hftc, hptc]
  · simp

/-- Witness for C7: a cost-free ledger buying and selling `10` units at
price `100`. -/
theorem C7_round_trip_witness :
    ((BacktestBase.init 1000 0 0).ftc = 0 ∧ (BacktestBase.init 1000 0 0).ptc = 0
      ∧ 0 < getPrice [100] 0)
  ∧ (_place_buy_order (BacktestBase.init 1000 0 0) [100] 0 (some 10) none >>= fun l =>
       _place_sell_order l [100] 0 (some 10) none)
      = Except.ok { BacktestBase.init 1000 0 0 with
                      trades := (BacktestBase.init 1000 0 0).trades + 2 } :=
  ⟨⟨rfl, rfl, by decide⟩,
   C7_round_trip (BacktestBase.init 1000 0 0) [100] 0 10 rfl rfl (by decide)⟩

/-! ## C10 — cost-free orders preserve net wealth -/

/-- C10: with `ftc = 0` and `ptc = 0` and a positive price, a single buy or
sell (sized by units or by amount) leaves net wealth
`cash + units * price` at that candle exactly unchanged. -/
theorem C10_net_wealth_preserved (self : Ledger) (closes : List ℚ) (candle : ℕ)
    (units? amount? : Option ℚ)
    (hftc : self.ftc = 0) (hptc : self.ptc = 0)
    (hp : 0 < getPrice closes candle)
    (hsize : units?.isSome ∨ amount?.isSome) :
    (∃ l, _place_buy_order self closes candle units? amount? = Except.ok l
       ∧ l.amount + l.units * getPrice closes candle
           = self.amount + self.units * getPrice closes candle)
  ∧ (∃ l, _place_sell_order self closes candle units? amount? = Except.ok l
       ∧ l.amount + l.units * getPrice closes candle
           = self.amount + self.units * getPrice closes candle) := by
  match units?, amount? with
  | some u, _ =>
    refine ⟨⟨_, place_buy_units_eq self closes candle u _, ?_⟩,
            ⟨_, place_sell_units_eq self closes candle u _, ?_⟩⟩
    · show self.amount - ((u * getPrice closes candle) * (1 + self.ptc) + self.ftc)
          + (self.units + u) * getPrice closes candle = _
      rw [hftc, hptc]; ring
    · show self.amount + ((u * getPrice closes candle) * (1 - self.ptc) - self.ftc)
          + (self.units - u) * getPrice closes candle = _
      rw [hftc, hptc]; ring
  | none, some a =>
    have hp0 : getPrice closes candle ≠ 0 := ne_of_gt hp
    refine ⟨⟨_, place_buy_amount_eq self closes candle a, ?_⟩,
            ⟨_, place_sell_amount_eq self closes candle a, ?_⟩⟩
    · show self.amount -
          (((a / getPrice closes candle) * getPrice closes candle) * (1 + self.ptc) + self.ftc)
          + (self.units + a / getPrice closes candle) * getPrice closes candle = _
      rw [hftc, hptc]
      field_simp
    · show self.amount +
          (((a / getPrice closes candle) * getPrice closes candle) * (1 - self.ptc) - self.ftc)
          + (self.units - a / getPrice closes candle) * getPrice closes candle = _
      rw [hftc, hptc]
      field_simp
  | none, none =>
    simp [Option.isSome] at hsize

/-! ## C8 — zero-size order arguments are treated as unsupplied -/

/-- C8: in `_go_long` / `_go_short`, a supplied `units` or `amount` equal to
exactly `0` is falsy and behaves as if the argument were not supplied at
all: the call is literally equal to the call with that argument omitted,
so a zero-size order is never placed, sizing falls through from `units`
to `amount`, and with both arguments zero or unset nothing happens beyond
the liquidation of an opposite position. -/
theorem C8_zero_size_falls_through (self : Ledger) (closes : List ℚ) (candle : ℕ) :
    (∀ amount, _go_long self closes candle (some 0) amount
        = _go_long self closes candle none amount)
  ∧ (∀ units, _go_long self closes candle units (some (AmountArg.val 0))
        = _go_long self closes candle units none)
  ∧ (∀ amount, _go_short self closes candle (some 0) amount
        = _go_short self closes candle none amount)
  ∧ (∀ units, _go_short self closes candle units (some (AmountArg.val 0))
        = _go_short self closes candle units none)
  ∧ (_go_long self closes candle none none
        = if self.position = -1 then
            _place_buy_order self closes candle (some (-self.units)) none
          else
            pure self)
  ∧ (_go_short self closes candle none none
        = if self.position = 1 then
            _place_sell_order self closes candle (some self.units) none
          else
            pure self) := by
  refine ⟨?_, ?_, ?_, ?_, ?_, ?_⟩
  · intro amount
    simp [_go_long, truthyUnits]
  · intro units
    simp [_go_long, truthyAmount]
  · intro amount
    simp [_go_short, truthyUnits]
  · intro units
    simp [_go_short, truthyAmount]
  · by_cases h : self.position = -1 <;>
      simp [_go_long, truthyUnits, truthyAmount, h]
  · by_cases h : self.position = 1 <;>
      simp [_go_short, truthyUnits, truthyAmount, h]

/-- Witness for C10: a cost-free ledger trading `10` units at price `100`. -/
theorem C10_net_wealth_preserved_witness :
    ((BacktestBase.init 1000 0 0).ftc = 0 ∧ (BacktestBase.init 1000 0 0).ptc = 0
      ∧ 0 < getPrice [100] 0
      ∧ (Option.isSome (some (10 : ℚ)) ∨ Option.isSome (none : Option ℚ)))
  ∧ ((∃ l, _place_buy_order (BacktestBase.init 1000 0 0) [100] 0 (some 10) none = Except.ok l
       ∧ l.amount + l.units * getPrice [100] 0
           = (BacktestBase.init 1000 0 0).amount
             + (BacktestBase.init 1000 0 0).units * getPrice [100] 0)
     ∧ (∃ l, _place_sell_order (BacktestBase.init 1000 0 0) [100] 0 (some 10) none = Except.ok l
       ∧ l.amount + l.units * getPrice [100] 0
           = (BacktestBase.init 1000 0 0).amount
             + (BacktestBase.init 1000 0 0).units * getPrice [100] 0)) :=
  ⟨⟨rfl, rfl, by decide, Or.inl rfl⟩,
   C10_net_wealth_preserved (BacktestBase.init 1000 0 0) [100] 0 (some 10) none
     rfl rfl (by decide) (Or.inl rfl)⟩

/-! ## Constant-price (degenerate) series lemmas -/

/-- On a constant series every in-range close read is the constant. -/
theorem getD_const {closes : List ℚ} {c : ℚ} (h : ∀ x ∈ closes, x = c)
    {i : ℕ} (hi : i < closes.length) : closes.getD i 0 = c := by
  rw [List.getD_eq_getElem?_getD, List.getElem?_eq_getElem hi, Option.getD_some]
  exact h _ (List.getElem_mem hi)

/-- On a constant series every in-range price is the constant. -/
theorem getPrice_const {closes : List ℚ} {c : ℚ} (h : ∀ x ∈ closes, x = c)
    {i : ℕ} (hi : i < closes.length) : getPrice closes i = c :=
  getD_const h hi

/-- On a constant series, every entry of the `difference` column is either
undefined (`NaN`) or zero, because each defined rolling mean equals the
constant. -/
theorem difference_const {closes : List ℚ} {c : ℚ} (h : ∀ x ∈ closes, x = c)
    (w i : ℕ) :
    difference closes w i = none ∨ difference closes w i = some 0 := by
  unfold difference smaAt
  by_cases hg : 1 ≤ w ∧ w ≤ i + 1 ∧ i < closes.length
  · right
    rw [if_pos hg]
    obtain ⟨hw1, hwi, hil⟩ := hg
    have hslice : (closes.drop (i + 1 - w)).take w = List.replicate w c := by
      have hmem : ∀ b ∈ (closes.drop (i + 1 - w)).take w, b = c := fun b hb =>
        h b (List.drop_subset _ _ (List.take_subset _ _ hb))
      have hlen : ((closes.drop (i + 1 - w)).take w).length = w := by
        rw [List.length_take, List.length_drop]
        omega
      calc (closes.drop (i + 1 - w)).take w
          = List.replicate ((closes.drop (i + 1 - w)).take w).length c :=
            List.eq_replicate_length.mpr hmem
        _ = List.replicate w c := by rw [hlen]
    have hw0 : (w : ℚ) ≠ 0 := Nat.cast_ne_zero.mpr (by omega)
    rw [hslice, List.sum_replicate, nsmul_eq_mul, Option.map_some',
        mul_div_cancel_left₀ c hw0, getD_const h hil, sub_self]
  · left
    rw [if_neg hg, Option.map_none']

/-- On a constant series every defined entry of the `difference` column
is zero. -/
theorem definedDiffs_const {closes : List ℚ} {c : ℚ} (h : ∀ x ∈ closes, x = c)
    (w : ℕ) : ∀ x ∈ definedDiffs closes w, x = 0 := by
  intro x hx
  unfold definedDiffs at hx
  rw [List.mem_filterMap] at hx
  obtain ⟨i, _, hfi⟩ := hx
  rcases difference_const h w i with hnone | hsome
  · rw [hnone] at hfi
    cases hfi
  · rw [hsome] at hfi
    exact (Option.some.inj hfi).symm

/-- On a constant series the mean of the `difference` column is zero. -/
theorem diffMean_const {closes : List ℚ} {c : ℚ} (h : ∀ x ∈ closes, x = c)
    (w : ℕ) : diffMean closes w = 0 := by
  unfold diffMean
  rw [List.sum_eq_zero (definedDiffs_const h w), zero_div]

/-- On a constant series the sample variance of the `difference` column
is zero. -/
theorem diffVar_const {closes : List ℚ} {c : ℚ} (h : ∀ x ∈ closes, x = c)
    (w : ℕ) : diffVar closes w = 0 := by
  unfold diffVar
  rw [List.sum_eq_zero, zero_div]
  intro y hy
  rw [List.mem_map] at hy
  obtain ⟨x, hx, rfl⟩ := hy
  rw [definedDiffs_const h w x hx, diffMean_const h w]
  norm_num

/-- On a constant series the `norm_diff` column is `NaN` everywhere: the
standard deviation of `difference` is zero (or undefined), so the
normalization is a `0/0`. -/
theorem norm_diff_const {closes : List ℚ} {c : ℚ} (h : ∀ x ∈ closes, x = c)
    (w : ℕ) : ∀ i, norm_diff closes w i = none := by
  intro i
  unfold norm_diff
  rcases difference_const h w i with hnone | hsome
  · rw [hnone, Option.none_bind]
  · rw [hsome, Option.some_bind]
    by_cases hlen : (definedDiffs closes w).length < 2
    · rw [if_pos hlen]
    · rw [if_neg hlen, if_pos (diffVar_const h w)]

/-- When the signal at a candle is `NaN` and the ledger is flat, the
long-only loop body leaves the ledger untouched. -/
theorem longOnly_step_skip (closes : List ℚ) (sma : ℕ) (thr : ℚ)
    (s : Ledger) (candle : ℕ) (hpos : s.position = 0)
    (hnd : norm_diff closes sma candle = none) :
    LongOnlyBacktest.step closes sma thr s candle = Except.ok s := by
  simp [LongOnlyBacktest.step, hpos, hnd, sigLt, pure, Except.pure]

/-- When every signal is `NaN`, folding the long-only loop body over any
candle list from a flat ledger returns that ledger unchanged. -/
theorem longOnly_foldlM_skip (closes : List ℚ) (sma : ℕ) (thr : ℚ)
    (hnd : ∀ i, norm_diff closes sma i = none) :
    ∀ (cs : List ℕ) (s : Ledger), s.position = 0 →
      cs.foldlM (LongOnlyBacktest.step closes sma thr) s = Except.ok s := by
  intro cs
  induction cs with
  | nil => intro s _; rfl
  | cons cand cs ih =>
    intro s hs
    rw [List.foldlM_cons, longOnly_step_skip closes sma thr s cand hs (hnd cand)]
    exact ih s hs

/-- A long-only mean-reversion run over a constant price series: the loop
never trades, and the forced close-out liquidates any stale holdings at
the constant price, leaving `trades = 1`. -/
theorem longOnly_run_const (self : Ledger) (closes : List ℚ) (c : ℚ)
    (sma : ℕ) (thr : ℚ)
    (hconst : ∀ x ∈ closes, x = c) (hlen : sma < closes.length) :
    LongOnlyBacktest.run_mean_reversion_strategy self closes sma thr
      = Except.ok { self with
          amount := self.initial_amount + self.units * c
          units := 0
          position := 0
          trades := 1 } := by
  unfold LongOnlyBacktest.run_mean_reversion_strategy
  dsimp only
  rw [longOnly_foldlM_skip closes sma thr (norm_diff_const hconst sma)
        (List.range' sma (closes.length - sma)) (resetForRun self) rfl]
  show (if sma < closes.length then
          pure (_close_out (resetForRun self) closes (closes.length - 1))
        else throw RunError.unboundCandle) = _
  rw [if_pos hlen]
  unfold _close_out
  rw [getPrice_const hconst (show closes.length - 1 < closes.length by omega)]
  rfl

/-! ## C6 — degenerate (constant price) series -/

/-- C6: on a constant-price series the standard deviation of `difference`
is zero, every `norm_diff` entry is `NaN`, and a `NaN` never crosses a
threshold; so a long-only mean-reversion run on a fresh instance
completes without raising, triggers no buy or sell in the loop, and ends
with exactly one trade (the forced close-out) and zero net performance
change (final cash equals `initial_amount`). -/
theorem C6_degenerate_signal_run (a f p c thr : ℚ) (closes : List ℚ) (sma : ℕ)
    (hconst : ∀ x ∈ closes, x = c) (_hsma : 1 ≤ sma) (hlen : sma < closes.length) :
    LongOnlyBacktest.run_mean_reversion_strategy (BacktestBase.init a f p) closes sma thr
      = Except.ok { initial_amount := a, amount := a, ftc := f, ptc := p,
                    units := 0, position := 0, trades := 1 } := by
  rw [longOnly_run_const (BacktestBase.init a f p) closes c sma thr hconst hlen]
  simp [BacktestBase.init]

/-- Witness for C6: a three-bar constant series at price `5`, window `1`,
threshold `2`. -/
theorem C6_degenerate_signal_run_witness :
    ((∀ x ∈ ([5, 5, 5] : List ℚ), x = (5 : ℚ)) ∧ 1 ≤ 1 ∧ 1 < ([5, 5, 5] : List ℚ).length)
  ∧ LongOnlyBacktest.run_mean_reversion_strategy (BacktestBase.init 1000 0 0) [5, 5, 5] 1 2
      = Except.ok { initial_amount := 1000, amount := 1000, ftc := 0, ptc := 0,
                    units := 0, position := 0, trades := 1 } :=
  ⟨⟨by decide, by decide, by decide⟩,
   C6_degenerate_signal_run 1000 0 0 5 2 [5, 5, 5] 1 (by decide) (by decide) (by decide)⟩

/-! ## C9 — pre-loop reset does not touch units -/

/-- C9: the pre-loop reset of `run_mean_reversion_strategy` assigns
`position = FLAT`, `trades = 0` and `cash = initial_amount` but leaves
`units` at its prior value; observably, re-running on an instance with
stale holdings `u` prices those holdings into the close-out, ending with
cash `initial_amount + u * price` instead of `initial_amount`. -/
theorem C9_reset_frame (self : Ledger) (thr : ℚ) :
    (resetForRun self).position = FLAT
  ∧ (resetForRun self).trades = 0
  ∧ (resetForRun self).amount = self.initial_amount
  ∧ (resetForRun self).units = self.units
  ∧ LongOnlyBacktest.run_mean_reversion_strategy self [5, 5] 1 thr
      = Except.ok { self with
          amount := self.initial_amount + self.units * 5
          units := 0
          position := 0
          trades := 1 } :=
  ⟨rfl, rfl, rfl, rfl,
   longOnly_run_const self [5, 5] 5 1 thr (by decide) (by decide)⟩

/-! ## C3 — window not smaller than the series: unbound loop variable -/

/-- C3: when `sma >= len(bar_series)` the loop body indeed never executes,
but then `self._close_out(candle)` reads the never-bound loop variable
`candle` and raises `UnboundLocalError` in both strategy classes; the run
aborts instead of completing normally with `trade_count = 1`. -/
theorem C3_empty_loop_unbound_candle (self : Ledger) (closes : List ℚ)
    (sma : ℕ) (thr : ℚ) (h : closes.length ≤ sma) :
    LongOnlyBacktest.run_mean_reversion_strategy self closes sma thr
        = Except.error RunError.unboundCandle
  ∧ LongShortBacktest.run_mean_reversion_strategy self closes sma thr
        = Except.error RunError.unboundCandle := by
  have hz : closes.length - sma = 0 := by omega
  have hnlt : ¬ sma < closes.length := by omega
  constructor
  · unfold LongOnlyBacktest.run_mean_reversion_strategy
    dsimp only
    rw [hz]
    show (if sma < closes.length then _ else _) = _
    rw [if_neg hnlt]
    rfl
  · unfold LongShortBacktest.run_mean_reversion_strategy
    dsimp only
    rw [hz]
    show (if sma < closes.length then _ else _) = _
    rw [if_neg hnlt]
    rfl

/-- Witness for C3: a two-bar series with `sma = 2` (window equal to the
series length). -/
theorem C3_empty_loop_unbound_candle_witness :
    ([5, 5] : List ℚ).length ≤ 2
  ∧ (LongOnlyBacktest.run_mean_reversion_strategy (BacktestBase.init 1000 0 0) [5, 5] 2 2
        = Except.error RunError.unboundCandle
     ∧ LongShortBacktest.run_mean_reversion_strategy (BacktestBase.init 1000 0 0) [5, 5] 2 2
        = Except.error RunError.unboundCandle) :=
  ⟨by decide,
   C3_empty_loop_unbound_candle (BacktestBase.init 1000 0 0) [5, 5] 2 2 (by decide)⟩

/-! ## C4 — no configuration validation exists -/

/-- C4 counterexample: a configuration with non-positive `threshold = -1`
and non-positive `initial_amount = -5` is not rejected before any bar is
processed: the constructor accepts it and the run processes the series
and completes normally, mutating the ledger (`trades` ends at `1`), so no
`InvalidConfiguration` rejection exists in the code. -/
theorem C4_no_validation_counterexample :
    LongOnlyBacktest.run_mean_reversion_strategy (BacktestBase.init (-5) 0 0) [5, 5] 1 (-1)
      = Except.ok { initial_amount := -5, amount := -5, ftc := 0, ptc := 0,
                    units := 0, position := 0, trades := 1 } := by
  rw [longOnly_run_const (BacktestBase.init (-5) 0 0) [5, 5] 5 1 (-1) (by decide) (by decide)]
  simp [BacktestBase.init]

/-- C4 amended: the code performs no configuration validation.  The
constructor stores any `amount`, `ftc`, `ptc` unchanged (no rejection
path), and a run configured with non-positive `initial_amount` and
`threshold` still executes and completes normally. -/
theorem C4_no_validation_amended (amount ftc ptc thr : ℚ)
    (_hamount : amount ≤ 0) (_hthr : thr ≤ 0) :
    BacktestBase.init amount ftc ptc
        = { initial_amount := amount, amount := amount, ftc := ftc, ptc := ptc,
            units := 0, position := 0, trades := 0 }
  ∧ LongOnlyBacktest.run_mean_reversion_strategy (BacktestBase.init amount ftc ptc) [5, 5] 1 thr
        = Except.ok { initial_amount := amount, amount := amount, ftc := ftc, ptc := ptc,
                      units := 0, position := 0, trades := 1 } := by
  refine ⟨rfl, ?_⟩
  rw [longOnly_run_const (BacktestBase.init amount ftc ptc) [5, 5] 5 1 thr
        (by decide) (by decide)]
  simp [BacktestBase.init]

/-- Witness for C4's amended statement at `amount = -5`, `thr = -1`. -/
theorem C4_no_validation_amended_witness :
    ((-5 : ℚ) ≤ 0 ∧ (-1 : ℚ) ≤ 0)
  ∧ (BacktestBase.init (-5) 0 0
        = { initial_amount := -5, amount := -5, ftc := 0, ptc := 0,
            units := 0, position := 0, trades := 0 }
     ∧ LongOnlyBacktest.run_mean_reversion_strategy (BacktestBase.init (-5) 0 0) [5, 5] 1 (-1)
        = Except.ok { initial_amount := -5, amount := -5, ftc := 0, ptc := 0,
                      units := 0, position := 0, trades := 1 }) :=
  ⟨⟨by decide, by decide⟩,
   C4_no_validation_amended (-5) 0 0 (-1) (by decide) (by decide)⟩

end Backtest
